import Mathlib

/-!
Verification of the pygeoapi process-execution subsystem.

Shallow embedding of:
* `src/pygeoapi/api/processes.py` — `execute_process`, `get_job_result`;
* `src/pygeoapi/process/manager/tinydb_.py` — `TinyDBManager.add_job`,
  `TinyDBManager.get_job_result` over a TinyDB document table.

JSON values, the Python `json` module (`json.loads` / `json.dumps`) and the
HTTP response triple `(headers, status, body)` are modelled explicitly so that
every definition is executable.
-/

set_option maxRecDepth 4000

/-- JSON values as produced by Python `json.loads`: `None`, booleans, numbers
(integers only; float literals are outside the modelled domain), strings,
lists and dicts (as insertion-ordered key/value lists). -/
inductive Json where
  | null : Json
  | bool (b : Bool) : Json
  | num (n : Int) : Json
  | str (s : String) : Json
  | arr (xs : List Json) : Json
  | obj (kvs : List (String × Json)) : Json

/-- Python `dict.__setitem__`: an existing key keeps its position and gets the
new value, a fresh key is appended. -/
def setMember : List (String × Json) → String → Json → List (String × Json)
  | [], k, v => [(k, v)]
  | (k', v') :: rest, k, v =>
      if k' = k then (k', v) :: rest else (k', v') :: setMember rest k v

/-- Python `dict.get(k)`: value of the first (and, for parsed JSON, only)
binding of `k`; `none` for a missing key or a non-dict receiver (the source
only applies `.get` to dicts). -/
def jsonGet : Json → String → Option Json
  | .obj kvs, k => kvs.lookup k
  | _, _ => none

/-- Python `value == "s"` for a JSON value against a string literal. -/
def jsonEqStr (j : Json) (s : String) : Bool :=
  match j with
  | .str t => t == s
  | _ => false

/-- The character `{` (written via `Char.ofNat` to keep braces out of
literals). -/
def lbrace : Char := Char.ofNat 123

/-- The character `}`. -/
def rbrace : Char := Char.ofNat 125

/-- JSON whitespace skipping, as in the Python `json` scanner. -/
def skipWs : List Char → List Char
  | [] => []
  | c :: cs =>
      if c = ' ' || c = '\n' || c = '\t' || c = '\r' then skipWs cs
      else c :: cs

/-- Decode one JSON string escape character. -/
def escDecode (c : Char) : Option Char :=
  if c = '"' then some '"'
  else if c = '\\' then some '\\'
  else if c = '/' then some '/'
  else if c = 'n' then some '\n'
  else if c = 't' then some '\t'
  else if c = 'r' then some '\r'
  else if c = 'b' then some (Char.ofNat 8)
  else if c = 'f' then some (Char.ofNat 12)
  else none

/-- Parse the body of a JSON string (the opening quote already consumed). -/
def parseStringRest : List Char → Option (String × List Char)
  | [] => none
  | c :: cs =>
      if c = '"' then some ("", cs)
      else if c = '\\' then
        match cs with
        | [] => none
        | e :: cs2 =>
            match escDecode e with
            | none => none
            | some d =>
                (parseStringRest cs2).map fun p => (String.singleton d ++ p.1, p.2)
      else (parseStringRest cs).map fun p => (String.singleton c ++ p.1, p.2)
  termination_by structural l => l

/-- Parse an integer JSON number (optional minus sign, decimal digits). -/
def parseNumber (cs : List Char) : Option (Json × List Char) :=
  let (neg, cs') :=
    match cs with
    | '-' :: rest => (true, rest)
    | _ => (false, cs)
  let ds := cs'.takeWhile (fun c => c.isDigit)
  if ds.isEmpty then none
  else
    let n : Nat := ds.foldl (fun a c => a * 10 + (c.toNat - 48)) 0
    some (.num (if neg then -(n : Int) else (n : Int)), cs'.drop ds.length)

mutual

/-- Fuel-based recursive-descent JSON value parser (model of the Python
`json.loads` grammar on the values the subsystem exchanges). -/
def parseValue : Nat → List Char → Option (Json × List Char)
  | 0, _ => none
  | fuel + 1, cs =>
      match skipWs cs with
      | 'n' :: 'u' :: 'l' :: 'l' :: rest => some (.null, rest)
      | 't' :: 'r' :: 'u' :: 'e' :: rest => some (.bool true, rest)
      | 'f' :: 'a' :: 'l' :: 's' :: 'e' :: rest => some (.bool false, rest)
      | '"' :: rest => (parseStringRest rest).map fun p => (.str p.1, p.2)
      | '[' :: rest =>
          (match skipWs rest with
           | ']' :: rest2 => some (.arr [], rest2)
           | rest2 => (parseItems fuel rest2).map fun p => (.arr p.1, p.2))
      | c :: rest =>
          if c = lbrace then
            (match skipWs rest with
             | rest2 =>
                if rest2.head? = some rbrace then some (.obj [], rest2.tail)
                else (parseMembers fuel rest2 []).map fun p => (.obj p.1, p.2))
          else parseNumber (c :: rest)
      | [] => none
  termination_by structural fuel _ => fuel

/-- Parse the comma-separated items of a non-empty JSON array. -/
def parseItems : Nat → List Char → Option (List Json × List Char)
  | 0, _ => none
  | fuel + 1, cs =>
      match parseValue fuel cs with
      | none => none
      | some (j, rest) =>
          match skipWs rest with
          | ',' :: rest2 => (parseItems fuel rest2).map fun p => (j :: p.1, p.2)
          | ']' :: rest2 => some ([j], rest2)
          | _ => none
  termination_by structural fuel _ => fuel

/-- Parse the members of a non-empty JSON object; duplicate keys overwrite
in place, as in a Python dict. -/
def parseMembers : Nat → List Char → List (String × Json) →
    Option (List (String × Json) × List Char)
  | 0, _, _ => none
  | fuel + 1, cs, acc =>
      match skipWs cs with
      | '"' :: rest =>
          match parseStringRest rest with
          | none => none
          | some (k, rest2) =>
              match skipWs rest2 with
              | ':' :: rest3 =>
                  match parseValue fuel rest3 with
                  | none => none
                  | some (v, rest4) =>
                      let acc2 := setMember acc k v
                      match skipWs rest4 with
                      | ',' :: rest5 => parseMembers fuel rest5 acc2
                      | c :: rest5 =>
                          if c = rbrace then some (acc2, rest5) else none
                      | [] => none
              | _ => none
      | _ => none
  termination_by structural fuel _ _ => fuel

end

/-- Model of Python `json.loads`: parse the whole string, requiring only
whitespace after the value; `none` models `json.JSONDecodeError`. -/
def json_loads (s : String) : Option Json :=
  match parseValue (s.length + 1) s.toList with
  | some (j, rest) => if skipWs rest = [] then some j else none
  | none => none

/-- Escape one character as in `json.dumps` output (the escapes the
subsystem's payloads need; non-ASCII transliteration is not modelled). -/
def escapeChar (c : Char) : String :=
  if c = '"' then "\\\""
  else if c = '\\' then "\\\\"
  else if c = '\n' then "\\n"
  else if c = '\t' then "\\t"
  else if c = '\r' then "\\r"
  else String.singleton c

/-- A JSON string literal as written by `json.dumps`. -/
def escapeString (s : String) : String :=
  "\"" ++ String.join (s.toList.map escapeChar) ++ "\""

/-- `level * 4` spaces: the `indent=4` prefix of `json.dumps`. -/
def indentStr (level : Nat) : String :=
  String.join (List.replicate (level * 4) " ")

mutual

/-- Model of `json.dumps` serialization: compact separators `", "`/`": "`
when `pretty` is false, `indent=4` layout (items on their own lines,
separators `","`/`": "`) when `pretty` is true.  Key order is emitted as
given; `sort_keys=True` is modelled by pre-sorting with `sortJson`. -/
def dumpJson (pretty : Bool) (level : Nat) : Json → String
  | .null => "null"
  | .bool b => cond b "true" "false"
  | .num n => toString n
  | .str s => escapeString s
  | .arr xs =>
      if xs.isEmpty then "[]"
      else if pretty then
        "[\n" ++
          String.intercalate ",\n"
            ((dumpItems pretty (level + 1) xs).map fun p => indentStr (level + 1) ++ p) ++
          "\n" ++ indentStr level ++ "]"
      else "[" ++ String.intercalate ", " (dumpItems pretty level xs) ++ "]"
  | .obj kvs =>
      if kvs.isEmpty then String.singleton lbrace ++ String.singleton rbrace
      else if pretty then
        String.singleton lbrace ++ "\n" ++
          String.intercalate ",\n"
            ((dumpPairs pretty (level + 1) kvs).map fun p => indentStr (level + 1) ++ p) ++
          "\n" ++ indentStr level ++ String.singleton rbrace
      else
        String.singleton lbrace ++
          String.intercalate ", " (dumpPairs pretty level kvs) ++
          String.singleton rbrace
  termination_by structural j => j

/-- Serialize the items of an array. -/
def dumpItems (pretty : Bool) (level : Nat) : List Json → List String
  | [] => []
  | j :: js => dumpJson pretty level j :: dumpItems pretty level js
  termination_by structural l => l

/-- Serialize the members of an object (`"key": value`). -/
def dumpPairs (pretty : Bool) (level : Nat) : List (String × Json) → List String
  | [] => []
  | (k, v) :: rest =>
      (escapeString k ++ ": " ++ dumpJson pretty level v) :: dumpPairs pretty level rest
  termination_by structural l => l

end

/-- Key order on object members: compare the key strings (`sort_keys=True`
sorts by the raw key). -/
def KeyLe (a b : String × Json) : Prop := a.1 ≤ b.1

instance : DecidableRel KeyLe := fun a b =>
  inferInstanceAs (Decidable (a.1 ≤ b.1))

instance : IsTotal (String × Json) KeyLe := ⟨fun a b => le_total a.1 b.1⟩

instance : IsTrans (String × Json) KeyLe := ⟨fun _ _ _ h h2 => le_trans h h2⟩

mutual

/-- Recursively sort every object's members by key: the key-ordering effect
of `json.dumps(..., sort_keys=True)`. -/
def sortJson : Json → Json
  | .null => .null
  | .bool b => .bool b
  | .num n => .num n
  | .str s => .str s
  | .arr xs => .arr (sortJsonList xs)
  | .obj kvs => .obj (List.insertionSort KeyLe (sortJsonPairs kvs))
  termination_by structural j => j

/-- `sortJson` mapped over a list of values. -/
def sortJsonList : List Json → List Json
  | [] => []
  | j :: js => sortJson j :: sortJsonList js
  termination_by structural l => l

/-- `sortJson` mapped over the values of object members. -/
def sortJsonPairs : List (String × Json) → List (String × Json)
  | [] => []
  | (k, v) :: rest => (k, sortJson v) :: sortJsonPairs rest
  termination_by structural l => l

end

/-- `json.dumps(x, sort_keys=True, indent=4, default=json_serial)` as called
by `get_job_result` (processes.py line 208). -/
def json_dumps_sorted (j : Json) : String :=
  dumpJson true 0 (sortJson j)

/-- `pygeoapi.util.to_json(x, pretty)` — modelled from the spec (§4.3 step 9,
the module is not among the sources): `json.dumps`, with `indent=4` when
pretty-printing is configured. -/
def to_json (j : Json) (pretty : Bool) : String :=
  dumpJson pretty 0 j

/-- Response headers: Python dict modelled as an association list whose
lookup takes the first (most recent) binding. -/
abbrev Headers := List (String × String)

/-- `headers.get(k)` / `headers[k]` read access. -/
def headerGet (hs : Headers) (k : String) : Option String :=
  (hs.find? fun p => p.1 == k).map Prod.snd

/-- `headers[k] = v`: the new binding shadows (replaces) any existing one. -/
def setHeader (hs : Headers) (k v : String) : Headers :=
  (k, v) :: hs.filter fun p => p.1 != k

/-- `headers.update(extra)`: assign every binding of `extra` in order. -/
def updateHeaders (hs : Headers) (extra : Headers) : Headers :=
  extra.foldl (fun acc kv => setHeader acc kv.1 kv.2) hs

/-- A response body: either text already serialized by the core (`to_json`,
`json.dumps`, template rendering) or a payload handed to the web framework
unserialized (non-JSON mimetypes, error dicts). -/
inductive Content where
  | text (s : String) : Content
  | data (j : Json) : Content

/-- The `(headers, http_status, content)` triple both API functions return. -/
abbrev Response := Headers × Nat × Content

/-- Job status — modelled from the spec §3 (the `pygeoapi.util.JobStatus`
enum is not among the sources): `accepted`, `running`, `successful`,
`failed`; `execute_process` and `get_job_result` only compare against these
four. -/
inductive JobStatus where
  | accepted | running | successful | failed
deriving DecidableEq, Repr

/-- Execution mode — modelled from the spec §3/§4.3 step 6
(`pygeoapi.util.RequestedProcessExecutionMode` is not among the sources):
`sync`, `async`, `auto`; the source represents `auto` as the `None` the
`except ValueError` handler leaves behind (processes.py lines 110-115). -/
inductive ExecutionMode where
  | sync | async | auto
deriving DecidableEq, Repr

/-- `RequestedProcessExecutionMode(value)` with the `ValueError` fallback:
the recognized `Prefer` values (spec §6: `respond-async`, `respond-sync`)
select a mode, anything else — including an absent header — resolves to
`auto`. -/
def parseExecutionMode : Option String → ExecutionMode
  | some "respond-async" => ExecutionMode.async
  | some "respond-sync" => ExecutionMode.sync
  | _ => ExecutionMode.auto

/-- `request.headers.get('Prefer', request.headers.get('prefer'))` fed into
the mode parser (processes.py lines 110-115). -/
def resolveExecutionMode (hs : Headers) : ExecutionMode :=
  parseExecutionMode (headerGet hs "Prefer" <|> headerGet hs "prefer")

/-- The tuple a manager's `execute_process` returns (processes.py line 120):
`(job_id, mime_type, outputs, status, additional_headers)`;
`additional_headers` may be `None` (`or {}` at line 121). -/
structure ManagerResult where
  job_id : String
  mime_type : String
  outputs : Json
  status : JobStatus
  additional_headers : Option Headers

/-- Outcome of invoking the manager: a result tuple, or the
`ProcessorExecuteError` the `except` clause at line 123 catches. -/
inductive ExecOutcome where
  | ok (r : ManagerResult) : ExecOutcome
  | err : ExecOutcome

/-- Requested representation: `F_JSON` or anything else (the `else` branch
of `get_job_result` renders HTML). -/
inductive ReqFormat where
  | json | html
deriving DecidableEq, Repr

/-- The slice of the `APIRequest` object the two functions read: the raw
body (after the best-effort bytes decode of lines 90-95), the header dict
and the negotiated format. -/
structure APIRequest where
  data : String
  headers : Headers
  format : ReqFormat

/-- The slice of the `API` object the two functions read.  The manager
(`pygeoapi.process.manager.base` is not among the sources) is modelled from
the spec: a process registry (`processes`), the execute capability, and the
Job Store as job-id-keyed status and result tables (§4.2); `render` stands
for the external `render_j2_template` collaborator. -/
structure API where
  processes : List String
  manager_execute : String → Json → ExecutionMode → ExecOutcome
  jobs : List (String × JobStatus)
  results : List (String × (Option String × Json))
  base_url : String
  pretty_print : Bool
  api_headers : Headers
  render : Json → String

/-- `api.manager.get_job(job_id)`: Job Store lookup; `none` models
`JobNotFoundError`. -/
def API.get_job (api : API) (job_id : String) : Option JobStatus :=
  api.jobs.lookup job_id

/-- `api.manager.get_job_result(job_id)`: `(mimetype, result)` attached to a
job; `none` models `JobResultNotFoundError`. -/
def API.job_result (api : API) (job_id : String) : Option (Option String × Json) :=
  api.results.lookup job_id

/-- `request.get_response_headers(SYSTEM_LOCALE, **api.api_headers)`:
responses are always in US English (processes.py line 72) plus the
configured server headers; the collaborator is out of scope (spec §1) and
modelled minimally. -/
def initialHeaders (api : API) : Headers :=
  ("Content-Language", "en-US") :: api.api_headers

/-- The uniform error body — spec §6: `\x7b"code": ..., "description": ...\x7d`. -/
def errorBody (code description : String) : Json :=
  Json.obj [("code", Json.str code), ("description", Json.str description)]

/-- `api.get_exception(status, headers, format, code, msg)` — modelled from
the spec §7 (`pygeoapi.api.API.get_exception` is not among the sources): the
uniform `(headers, status, error-body)` triple; per-format rendering of the
error body is the out-of-scope collaborator's concern. -/
def get_exception (status : Nat) (headers : Headers) (code msg : String) : Response :=
  (headers, status, Content.data (errorBody code msg))

/-- Final serialization step of `execute_process` (lines 145-148): JSON
payloads are encoded with `to_json`, anything else passes through. -/
def bodyOf (mime : String) (pretty : Bool) (response : Json) : Content :=
  if mime == "application/json" then Content.text (to_json response pretty)
  else Content.data response

/-- `pygeoapi.api.processes.execute_process(api, request, process_id)`
(processes.py lines 61-150), step for step:
registry check, empty-body check, JSON parse, `inputs` extraction,
`Prefer`-header mode resolution, manager invocation, `Location` header,
failed/raw/document response envelope, 201-on-accepted, JSON encoding.
(The `data.get` calls require the parsed payload to be a JSON object; the
theorems below restrict to that domain, as a non-object body would raise an
unmodelled `AttributeError` in the source.) -/
def execute_process (api : API) (request : APIRequest) (process_id : String) :
    Response :=
  let headers := initialHeaders api
  if process_id ∉ api.processes then
    get_exception 404 headers "NoSuchProcess" "identifier not found"
  else if request.data = "" then
    get_exception 400 headers "MissingParameterValue" "missing request data"
  else
    match json_loads request.data with
    | none => get_exception 400 headers "InvalidParameterValue" "invalid request data"
    | some data =>
        let data_dict := (jsonGet data "inputs").getD (Json.obj [])
        let execution_mode := resolveExecutionMode request.headers
        match api.manager_execute process_id data_dict execution_mode with
        | ExecOutcome.err =>
            get_exception 500 headers "NoApplicableCode" "Processing error"
        | ExecOutcome.ok r =>
            let headers1 :=
              setHeader (updateHeaders headers (r.additional_headers.getD []))
                "Location" (api.base_url ++ "/jobs/" ++ r.job_id)
            let raw := jsonEqStr ((jsonGet data "response").getD (Json.str "raw")) "raw"
            let headers2 :=
              if raw then setHeader headers1 "Content-Type" r.mime_type else headers1
            let response1 :=
              if r.status = JobStatus.failed then r.outputs else Json.obj []
            let response2 :=
              if raw then r.outputs
              else if r.status ≠ JobStatus.failed ∧ r.status ≠ JobStatus.accepted then
                Json.obj (setMember [] "outputs" (Json.arr [r.outputs]))
              else response1
            let http_status := if r.status = JobStatus.accepted then 201 else 200
            (headers2, http_status, bodyOf r.mime_type api.pretty_print response2)

/-- `mimetype not in (None, FORMAT_TYPES[F_JSON])` (processes.py line 203). -/
def mimetypePassthrough : Option String → Bool
  | none => false
  | some m => m != "application/json"

/-- Content negotiation on a fetched job result (processes.py lines
203-218): verbatim passthrough with its `Content-Type` for non-JSON
mimetypes, `json.dumps(..., sort_keys=True, indent=4)` for JSON requests,
the external template renderer otherwise. -/
def result_response (api : API) (request : APIRequest) (headers : Headers)
    (job_id : String) (mimetype : Option String) (job_output : Json) : Response :=
  if mimetypePassthrough mimetype then
    (setHeader headers "Content-Type" (mimetype.getD ""), 200, Content.data job_output)
  else if request.format = ReqFormat.json then
    (headers, 200, Content.text (json_dumps_sorted job_output))
  else
    (headers, 200,
      Content.text (api.render (Json.obj
        [("job", Json.obj [("id", Json.str job_id)]), ("result", job_output)])))

/-- `pygeoapi.api.processes.get_job_result(api, request, job_id)`
(processes.py lines 153-220): job lookup, the status gate
(`running`/`accepted` → `ResultNotReady`, `failed` →
`InvalidParameterValue`), result fetch, content negotiation. -/
def get_job_result (api : API) (request : APIRequest) (job_id : String) :
    Response :=
  let headers := initialHeaders api
  match api.get_job job_id with
  | none => get_exception 404 headers "NoSuchJob" job_id
  | some status =>
      if status = JobStatus.running then
        get_exception 404 headers "ResultNotReady" "job still running"
      else if status = JobStatus.accepted then
        get_exception 404 headers "ResultNotReady" "job accepted but not yet running"
      else if status = JobStatus.failed then
        get_exception 400 headers "InvalidParameterValue" "job failed"
      else
        match api.job_result job_id with
        | none => get_exception 500 headers "JobResultNotFound" job_id
        | some (mimetype, job_output) =>
            result_response api request headers job_id mimetype job_output

/-- A Python exception escaping a call: `TypeError` is raised when a method
is invoked with the wrong number of positional arguments. -/
inductive PyError where
  | typeError
deriving DecidableEq, Repr

namespace TinyDB

/-- A TinyDB table: documents keyed by their integer `doc_id`, in insertion
order. -/
abbrev DB := List (Nat × Json)

/-- The `doc_id` the next committed insert receives: one past the largest
existing id (ids start at 1). -/
def nextDocId (db : DB) : Nat := (db.map Prod.fst).foldr max 0 + 1

/-- The net effect of `with transaction(self.db) as tr: tr.insert(doc)`
(tinyrecord): `tr.insert` only queues the operation in the transaction's
changeset and returns `None` — the document is appended under the next
sequential `doc_id` when the changeset is executed at commit (context
exit), so no id is handed back to the caller. -/
def transaction_insert (db : DB) (doc : Json) : DB × Option Nat :=
  (db ++ [(nextDocId db, doc)], none)

/-- `db.search(...)` called with a list of positional query conditions:
TinyDB's `search` accepts exactly ONE condition (a conjunction must be
written `(c1) & (c2)`), so any other arity raises `TypeError`; with one
condition it returns the stored documents satisfying it, in storage
order. -/
def search (db : DB) (conds : List (Json → Bool)) : Except PyError (List Json) :=
  match conds with
  | [cond] => Except.ok ((db.map Prod.snd).filter cond)
  | _ => Except.error PyError.typeError

/-- The query condition `tinydb.Query().field == value` for a string value:
the document has that field and it equals the string (a missing field never
matches). -/
def fieldEq (field value : String) (doc : Json) : Bool :=
  match jsonGet doc field with
  | some (Json.str s) => s == value
  | _ => false

end TinyDB

namespace TinyDBManager

/-- `TinyDBManager.add_job(job_metadata)` (tinydb_.py lines 96-107): queue
the insert inside a `tinyrecord` transaction (committed at `with`-block
exit) and return `doc_id` — which is the `None` that `tr.insert` yielded,
not the id the commit later assigns. -/
def add_job (db : TinyDB.DB) (job_metadata : Json) : TinyDB.DB × Option Nat :=
  TinyDB.transaction_insert db job_metadata

/-- `TinyDBManager.get_job_result(processid, jobid)` (tinydb_.py lines
115-128): `self.db.search(query.processid == processid, query.jobid ==
jobid)` — two positional conditions handed to a one-condition method. -/
def get_job_result (db : TinyDB.DB) (processid jobid : String) :
    Except PyError (List Json) :=
  TinyDB.search db
    [TinyDB.fieldEq "processid" processid, TinyDB.fieldEq "jobid" jobid]

end TinyDBManager

/-- The job-metadata document used to exhibit duplicate insertion. -/
def dupJobDoc : Json :=
  Json.obj [("processid", Json.str "p"), ("jobid", Json.str "j")]

/-- Fixture: the echo output of the `hello-world` process (see
tests/test_processes_api.py). -/
def sampleOutputs : Json :=
  Json.obj [("id", Json.str "echo"), ("value", Json.str "Hello Test!")]

/-- Fixture: the error payload a failed `hello-world` execution yields
(tests/test_processes_api.py lines 164-170). -/
def sampleFailedOutputs : Json :=
  Json.obj [("code", Json.str "InvalidParameterValue"),
    ("description", Json.str "Error updating job")]

/-- Fixture: a manager result tuple with the given status and outputs. -/
def mkResult (st : JobStatus) (out : Json) : ManagerResult :=
  { job_id := "job-1"
    mime_type := "application/json"
    outputs := out
    status := st
    additional_headers := none }

/-- Fixture: an API whose manager runs `hello-world` to the given status
and whose Job Store holds the corresponding job and result. -/
def mkAPI (st : JobStatus) (out : Json) : API :=
  { processes := ["hello-world"]
    manager_execute := fun _ _ _ => ExecOutcome.ok (mkResult st out)
    jobs := [("job-1", st)]
    results := [("job-1", (some "application/json", out))]
    base_url := "http://localhost:5000"
    pretty_print := false
    api_headers := []
    render := fun _ => "" }

/-- Fixture: the parsed members of `sampleRequest`'s body. -/
def sampleKvs : List (String × Json) :=
  [("inputs", Json.obj [("name", Json.str "Test")])]

/-- Fixture: an execute request with body
`\x7b"inputs": \x7b"name": "Test"\x7d\x7d` and no `Prefer` header. -/
def sampleRequest : APIRequest :=
  { data := "\x7b\"inputs\": \x7b\"name\": \"Test\"\x7d\x7d"
    headers := []
    format := ReqFormat.json }

/-- Fixture: the parsed members of `documentRequest`'s body. -/
def documentKvs : List (String × Json) :=
  [("inputs", Json.obj []), ("response", Json.str "document")]

/-- Fixture: an async execute request in `document` response style. -/
def documentRequest : APIRequest :=
  { data := "\x7b\"inputs\": \x7b\x7d, \"response\": \"document\"\x7d"
    headers := [("Prefer", "respond-async")]
    format := ReqFormat.json }

/-- Fixture: the failed-execution scenario. -/
def failedResult : ManagerResult := mkResult JobStatus.failed sampleFailedOutputs

/-- Fixture: API for the failed-execution scenario. -/
def failedAPI : API := mkAPI JobStatus.failed sampleFailedOutputs

/-- Fixture: the successful-execution scenario. -/
def successResult : ManagerResult := mkResult JobStatus.successful sampleOutputs

/-- Fixture: API for the successful-execution scenario. -/
def successAPI : API := mkAPI JobStatus.successful sampleOutputs

/-- Fixture: the async `accepted` scenario. -/
def acceptedResult : ManagerResult := mkResult JobStatus.accepted (Json.obj [])

/-- Fixture: API for the async `accepted` scenario. -/
def acceptedAPI : API := mkAPI JobStatus.accepted (Json.obj [])

/-- Fixture: a result object stored with its members in one order... -/
def permKvs1 : List (String × Json) := [("b", Json.num 1), ("a", Json.num 2)]

/-- ...and the same members in the other order. -/
def permKvs2 : List (String × Json) := [("a", Json.num 2), ("b", Json.num 1)]

theorem headerGet_setHeader_self (hs : Headers) (k v : String) :
    headerGet (setHeader hs k v) k = some v := by
  simp [headerGet, setHeader, List.find?]

theorem find?_filter_ne (hs : Headers) (k k' : String) (h : k' ≠ k) :
    (hs.filter fun p => p.1 != k).find? (fun p => p.1 == k') =
      hs.find? (fun p => p.1 == k') := by
  induction hs with
  | nil => rfl
  | cons p rest ih =>
      by_cases hk : p.1 = k
      · have h1 : (p.1 != k) = false := by simp [hk]
        have h2 : (p.1 == k') = false := by
          simp only [beq_eq_false_iff_ne]
          rw [hk]; exact Ne.symm h
        simp [List.filter_cons, h1, List.find?, h2, ih]
      · have h1 : (p.1 != k) = true := by simp [hk]
        by_cases hp : p.1 = k'
        · have h2 : (p.1 == k') = true := by simp [hp]
          simp [List.filter_cons, h1, List.find?, h2]
        · have h2 : (p.1 == k') = false := by simp [hp]
          simp [List.filter_cons, h1, List.find?, h2, ih]

theorem headerGet_setHeader_ne (hs : Headers) (k k' v : String) (h : k' ≠ k) :
    headerGet (setHeader hs k v) k' = headerGet hs k' := by
  have h2 : (k == k') = false := by
    simp only [beq_eq_false_iff_ne]
    exact Ne.symm h
  simp [headerGet, setHeader, List.find?, h2, find?_filter_ne hs k k' h]

instance : IsAntisymm (String × Json) (fun a b => a.1 < b.1) :=
  ⟨fun _ _ h1 h2 => absurd h2 (lt_asymm h1)⟩

/-- Two permuted member lists with (pairwise) distinct keys sort to the same
list: the heart of `sort_keys=True` determinism. -/
theorem insertionSort_eq_of_perm (l₁ l₂ : List (String × Json))
    (hp : l₁.Perm l₂) (hnd : (l₁.map Prod.fst).Nodup) :
    List.insertionSort KeyLe l₁ = List.insertionSort KeyLe l₂ := by
  have hs₁ : List.Sorted KeyLe (List.insertionSort KeyLe l₁) :=
    List.sorted_insertionSort KeyLe l₁
  have hs₂ : List.Sorted KeyLe (List.insertionSort KeyLe l₂) :=
    List.sorted_insertionSort KeyLe l₂
  have hperm : (List.insertionSort KeyLe l₁).Perm (List.insertionSort KeyLe l₂) :=
    (List.perm_insertionSort KeyLe l₁).trans
      (hp.trans (List.perm_insertionSort KeyLe l₂).symm)
  have hnd₁ : ((List.insertionSort KeyLe l₁).map Prod.fst).Nodup :=
    (((List.perm_insertionSort KeyLe l₁).map Prod.fst).nodup_iff).mpr hnd
  have hnd₂ : ((List.insertionSort KeyLe l₂).map Prod.fst).Nodup :=
    ((hperm.map Prod.fst).nodup_iff).mp hnd₁
  have hne₁ : (List.insertionSort KeyLe l₁).Pairwise
      (fun a b : String × Json => a.1 ≠ b.1) :=
    (List.pairwise_map).mp hnd₁
  have hne₂ : (List.insertionSort KeyLe l₂).Pairwise
      (fun a b : String × Json => a.1 ≠ b.1) :=
    (List.pairwise_map).mp hnd₂
  have hlt₁ : (List.insertionSort KeyLe l₁).Pairwise
      (fun a b : String × Json => a.1 < b.1) :=
    (hs₁.and hne₁).imp (fun h => lt_of_le_of_ne h.1 h.2)
  have hlt₂ : (List.insertionSort KeyLe l₂).Pairwise
      (fun a b : String × Json => a.1 < b.1) :=
    (hs₂.and hne₂).imp (fun h => lt_of_le_of_ne h.1 h.2)
  exact List.eq_of_perm_of_sorted hperm hlt₁ hlt₂

theorem sortJsonPairs_eq_map (kvs : List (String × Json)) :
    sortJsonPairs kvs = kvs.map (fun kv => (kv.1, sortJson kv.2)) := by
  induction kvs with
  | nil => rfl
  | cons kv rest ih => cases kv; simp [sortJsonPairs, ih]

/-- `sort_keys=True` serialization of an object does not depend on the
order the members are stored in, provided the keys are distinct. -/
theorem json_dumps_sorted_perm (kvs₁ kvs₂ : List (String × Json))
    (hp : kvs₁.Perm kvs₂) (hnd : (kvs₁.map Prod.fst).Nodup) :
    json_dumps_sorted (Json.obj kvs₁) = json_dumps_sorted (Json.obj kvs₂) := by
  have hmap : (sortJsonPairs kvs₁).Perm (sortJsonPairs kvs₂) := by
    rw [sortJsonPairs_eq_map, sortJsonPairs_eq_map]
    exact hp.map _
  have hkeys : ((sortJsonPairs kvs₁).map Prod.fst).Nodup := by
    rw [sortJsonPairs_eq_map, List.map_map]
    simpa [Function.comp] using hnd
  have : List.insertionSort KeyLe (sortJsonPairs kvs₁) =
      List.insertionSort KeyLe (sortJsonPairs kvs₂) :=
    insertionSort_eq_of_perm _ _ hmap hkeys
  simp [json_dumps_sorted, sortJson, this]

theorem foldr_max_ge (l : List Nat) : ∀ i ∈ l, i ≤ l.foldr max 0 := by
  induction l with
  | nil => intro i hi; cases hi
  | cons a rest ih =>
      intro i hi
      rcases List.mem_cons.mp hi with h | h
      · simp [List.foldr, h, le_max_iff]
      · exact le_trans (ih i h) (by simp [List.foldr, le_max_iff])

theorem nextDocId_fresh (db : TinyDB.DB) :
    TinyDB.nextDocId db ∉ db.map Prod.fst := by
  intro hmem
  have := foldr_max_ge (db.map Prod.fst) _ hmem
  unfold TinyDB.nextDocId at this
  omega

/-- Claim C1: for every job whose process-level execution completes with
status `failed` (no processor error raised), `execute_process` returns HTTP
200 with the failure payload as the body, whereas `get_job_result` on that
same failed job returns HTTP 400 with error code `InvalidParameterValue`:
the two paths map the identical job status to different HTTP statuses. -/
theorem claim_C1 (api : API) (request request2 : APIRequest) (process_id : String)
    (kvs : List (String × Json)) (r : ManagerResult)
    (hp : process_id ∈ api.processes)
    (hd : request.data ≠ "")
    (hj : json_loads request.data = some (Json.obj kvs))
    (hx : api.manager_execute process_id
        ((jsonGet (Json.obj kvs) "inputs").getD (Json.obj []))
        (resolveExecutionMode request.headers) = ExecOutcome.ok r)
    (hf : r.status = JobStatus.failed)
    (hjob : api.get_job r.job_id = some JobStatus.failed) :
    (execute_process api request process_id).2.1 = 200 ∧
    (execute_process api request process_id).2.2 =
      bodyOf r.mime_type api.pretty_print r.outputs ∧
    get_job_result api request2 r.job_id =
      get_exception 400 (initialHeaders api) "InvalidParameterValue" "job failed" := by
  refine ⟨?_, ?_, ?_⟩
  · simp [execute_process, hp, hd, hj, hx, hf]
  · simp [execute_process, hp, hd, hj, hx, hf]
  · simp [get_job_result, hjob]

/-- Claim C2: `get_job_result` is gated by the stored job's status:
`running`/`accepted` → 404 `ResultNotReady`; `successful` with an attached
result → 200 with the (content-negotiated) result as body; unknown job id →
404 `NoSuchJob`; `successful` with no attached result → 500
`JobResultNotFound`. -/
theorem claim_C2 (api : API) (request : APIRequest) (job_id : String) :
    (api.get_job job_id = none →
      get_job_result api request job_id =
        get_exception 404 (initialHeaders api) "NoSuchJob" job_id) ∧
    (api.get_job job_id = some JobStatus.running →
      get_job_result api request job_id =
        get_exception 404 (initialHeaders api) "ResultNotReady" "job still running") ∧
    (api.get_job job_id = some JobStatus.accepted →
      get_job_result api request job_id =
        get_exception 404 (initialHeaders api) "ResultNotReady"
          "job accepted but not yet running") ∧
    (∀ mimetype job_output,
      api.get_job job_id = some JobStatus.successful →
      api.job_result job_id = some (mimetype, job_output) →
      get_job_result api request job_id =
        result_response api request (initialHeaders api) job_id mimetype job_output ∧
      (result_response api request (initialHeaders api) job_id mimetype
          job_output).2.1 = 200) ∧
    (api.get_job job_id = some JobStatus.successful →
      api.job_result job_id = none →
      get_job_result api request job_id =
        get_exception 500 (initialHeaders api) "JobResultNotFound" job_id) := by
  refine ⟨?_, ?_, ?_, ?_, ?_⟩
  · intro h; simp [get_job_result, h]
  · intro h; simp [get_job_result, h]
  · intro h; simp [get_job_result, h]
  · intro mimetype job_output h hr
    constructor
    · simp [get_job_result, h, hr]
    · unfold result_response
      split
      · rfl
      · split <;> rfl
  · intro h hr; simp [get_job_result, h, hr]

/-- Claim C5: for every execute request whose manager invocation returns
status `accepted` (the async path), `execute_process` returns HTTP 201 with
a `Location` header set to the job URL built from the returned job id; for
every other non-error status it returns HTTP 200. -/
theorem claim_C5 (api : API) (request : APIRequest) (process_id : String)
    (kvs : List (String × Json)) (r : ManagerResult)
    (hp : process_id ∈ api.processes)
    (hd : request.data ≠ "")
    (hj : json_loads request.data = some (Json.obj kvs))
    (hx : api.manager_execute process_id
        ((jsonGet (Json.obj kvs) "inputs").getD (Json.obj []))
        (resolveExecutionMode request.headers) = ExecOutcome.ok r) :
    (r.status = JobStatus.accepted →
      (execute_process api request process_id).2.1 = 201 ∧
      headerGet (execute_process api request process_id).1 "Location" =
        some (api.base_url ++ "/jobs/" ++ r.job_id)) ∧
    (r.status ≠ JobStatus.accepted →
      (execute_process api request process_id).2.1 = 200) := by
  constructor
  · intro hacc
    constructor
    · simp [execute_process, hp, hd, hj, hx, hacc]
    · by_cases hraw :
          jsonEqStr ((jsonGet (Json.obj kvs) "response").getD (Json.str "raw")) "raw"
      · simp [execute_process, hp, hd, hj, hx, hraw,
          headerGet_setHeader_ne _ "Content-Type" "Location" _ (by decide),
          headerGet_setHeader_self]
      · simp [execute_process, hp, hd, hj, hx, hraw, headerGet_setHeader_self]
  · intro hacc
    simp [execute_process, hp, hd, hj, hx, hacc]

/-- Claim C6: for a successfully executed process, in `raw` response style
(also the default when the `response` field is absent) the body is the
process's raw outputs (JSON-encoded exactly when the output mimetype is
`application/json`) and the `Content-Type` header is the output mimetype;
in `document` style, when the status is neither `failed` nor `accepted`,
the body is an object whose `outputs` field is the one-element list holding
the outputs. -/
theorem claim_C6 (api : API) (request : APIRequest) (process_id : String)
    (kvs : List (String × Json)) (r : ManagerResult)
    (hp : process_id ∈ api.processes)
    (hd : request.data ≠ "")
    (hj : json_loads request.data = some (Json.obj kvs))
    (hx : api.manager_execute process_id
        ((jsonGet (Json.obj kvs) "inputs").getD (Json.obj []))
        (resolveExecutionMode request.headers) = ExecOutcome.ok r) :
    ((jsonGet (Json.obj kvs) "response" = none ∨
        jsonGet (Json.obj kvs) "response" = some (Json.str "raw")) →
      (execute_process api request process_id).2.2 =
        bodyOf r.mime_type api.pretty_print r.outputs ∧
      headerGet (execute_process api request process_id).1 "Content-Type" =
        some r.mime_type) ∧
    (jsonGet (Json.obj kvs) "response" = some (Json.str "document") →
      r.status ≠ JobStatus.failed → r.status ≠ JobStatus.accepted →
      (execute_process api request process_id).2.2 =
        bodyOf r.mime_type api.pretty_print
          (Json.obj [("outputs", Json.arr [r.outputs])])) := by
  constructor
  · intro hstyle
    have hraw : jsonEqStr ((jsonGet (Json.obj kvs) "response").getD (Json.str "raw"))
        "raw" = true := by
      rcases hstyle with h | h <;> simp [h, jsonEqStr]
    constructor
    · simp [execute_process, hp, hd, hj, hx, hraw]
    · simp [execute_process, hp, hd, hj, hx, hraw, headerGet_setHeader_self]
  · intro hstyle hnf hna
    have hraw : jsonEqStr ((jsonGet (Json.obj kvs) "response").getD (Json.str "raw"))
        "raw" = false := by
      simp [hstyle, jsonEqStr]
    simp [execute_process, hp, hd, hj, hx, hraw, hnf, hna, setMember]

/-- Claim C8: an absent or unrecognized execution-mode preference header
resolves to `auto` and is never an error; only the recognized values select
`sync` or `async`, and with any header at all a successful manager
invocation still produces a non-error HTTP status (200 or 201). -/
theorem claim_C8 :
    (∀ hs : Headers, headerGet hs "Prefer" = none → headerGet hs "prefer" = none →
      resolveExecutionMode hs = ExecutionMode.auto) ∧
    (∀ v : String, v ≠ "respond-async" → v ≠ "respond-sync" →
      parseExecutionMode (some v) = ExecutionMode.auto) ∧
    parseExecutionMode none = ExecutionMode.auto ∧
    parseExecutionMode (some "respond-async") = ExecutionMode.async ∧
    parseExecutionMode (some "respond-sync") = ExecutionMode.sync ∧
    (∀ (api : API) (request : APIRequest) (process_id : String)
        (kvs : List (String × Json)) (r : ManagerResult),
      process_id ∈ api.processes → request.data ≠ "" →
      json_loads request.data = some (Json.obj kvs) →
      api.manager_execute process_id
          ((jsonGet (Json.obj kvs) "inputs").getD (Json.obj []))
          (resolveExecutionMode request.headers) = ExecOutcome.ok r →
      (execute_process api request process_id).2.1 = 200 ∨
      (execute_process api request process_id).2.1 = 201) := by
  refine ⟨?_, ?_, rfl, rfl, rfl, ?_⟩
  · intro hs h1 h2
    simp [resolveExecutionMode, h1, h2, parseExecutionMode]
  · intro v h1 h2
    unfold parseExecutionMode
    split <;> simp_all
  · intro api request process_id kvs r hp hd hj hx
    by_cases hacc : r.status = JobStatus.accepted
    · right; simp [execute_process, hp, hd, hj, hx, hacc]
    · left; simp [execute_process, hp, hd, hj, hx, hacc]

/-- Claim C9: an execute request in `document` response style whose manager
invocation returns status `accepted` (async path) gets an HTTP 201 response
whose body is the empty JSON object — neither the outputs nor an `outputs`
wrapper — serialized as `&#x7b;&#x7d;` when the mimetype is JSON. -/
theorem claim_C9 (api : API) (request : APIRequest) (process_id : String)
    (kvs : List (String × Json)) (r : ManagerResult)
    (hp : process_id ∈ api.processes)
    (hd : request.data ≠ "")
    (hj : json_loads request.data = some (Json.obj kvs))
    (hx : api.manager_execute process_id
        ((jsonGet (Json.obj kvs) "inputs").getD (Json.obj []))
        (resolveExecutionMode request.headers) = ExecOutcome.ok r)
    (hstyle : jsonGet (Json.obj kvs) "response" = some (Json.str "document"))
    (hacc : r.status = JobStatus.accepted) :
    (execute_process api request process_id).2.1 = 201 ∧
    (execute_process api request process_id).2.2 =
      bodyOf r.mime_type api.pretty_print (Json.obj []) ∧
    (r.mime_type = "application/json" →
      (execute_process api request process_id).2.2 =
        Content.text (String.singleton lbrace ++ String.singleton rbrace)) := by
  have hraw : jsonEqStr ((jsonGet (Json.obj kvs) "response").getD (Json.str "raw"))
      "raw" = false := by
    simp [hstyle, jsonEqStr]
  refine ⟨?_, ?_, ?_⟩
  · simp [execute_process, hp, hd, hj, hx, hacc]
  · simp [execute_process, hp, hd, hj, hx, hacc, hraw]
  · intro hmime
    simp [execute_process, hp, hd, hj, hx, hacc, hraw, hmime, bodyOf, to_json, dumpJson]

/-- Claim C10: whenever the manager invocation returns without raising a
processor error, `execute_process` sets the `Location` header to the job
URL regardless of the returned status (including `failed`); `Location` is
absent exactly on the `NoSuchProcess`, `MissingParameterValue`,
`InvalidParameterValue` (parse) and `NoApplicableCode` error paths
(given that the configured server headers do not already carry one). -/
theorem claim_C10 (api : API) (request : APIRequest) (process_id : String)
    (hloc : headerGet api.api_headers "Location" = none) :
    (process_id ∉ api.processes →
      headerGet (execute_process api request process_id).1 "Location" = none) ∧
    (process_id ∈ api.processes → request.data = "" →
      headerGet (execute_process api request process_id).1 "Location" = none) ∧
    (process_id ∈ api.processes → request.data ≠ "" →
      json_loads request.data = none →
      headerGet (execute_process api request process_id).1 "Location" = none) ∧
    (∀ kvs : List (String × Json), process_id ∈ api.processes → request.data ≠ "" →
      json_loads request.data = some (Json.obj kvs) →
      api.manager_execute process_id
          ((jsonGet (Json.obj kvs) "inputs").getD (Json.obj []))
          (resolveExecutionMode request.headers) = ExecOutcome.err →
      headerGet (execute_process api request process_id).1 "Location" = none) ∧
    (∀ (kvs : List (String × Json)) (r : ManagerResult),
      process_id ∈ api.processes → request.data ≠ "" →
      json_loads request.data = some (Json.obj kvs) →
      api.manager_execute process_id
          ((jsonGet (Json.obj kvs) "inputs").getD (Json.obj []))
          (resolveExecutionMode request.headers) = ExecOutcome.ok r →
      headerGet (execute_process api request process_id).1 "Location" =
        some (api.base_url ++ "/jobs/" ++ r.job_id)) := by
  have hinit : headerGet (initialHeaders api) "Location" = none := by
    simp [initialHeaders, headerGet, List.find?] at hloc ⊢
    exact hloc
  refine ⟨?_, ?_, ?_, ?_, ?_⟩
  · intro h
    simp [execute_process, h, get_exception, hinit]
  · intro hp hd
    simp [execute_process, hp, hd, get_exception, hinit]
  · intro hp hd hj
    simp [execute_process, hp, hd, hj, get_exception, hinit]
  · intro kvs hp hd hj hx
    simp [execute_process, hp, hd, hj, hx, get_exception, hinit]
  · intro kvs r hp hd hj hx
    by_cases hraw :
        jsonEqStr ((jsonGet (Json.obj kvs) "response").getD (Json.str "raw")) "raw"
    · simp [execute_process, hp, hd, hj, hx, hraw,
        headerGet_setHeader_ne _ "Content-Type" "Location" _ (by decide),
        headerGet_setHeader_self]
    · simp [execute_process, hp, hd, hj, hx, hraw, headerGet_setHeader_self]

/-- Claim C7: `get_job_result` on a terminal successful job with an
attached JSON result is deterministic: the serialized body is byte-identical
across calls, and — because `json.dumps` is invoked with stable key
ordering (`sort_keys=True`) — even across stores holding the same result
object with its members in different order. -/
theorem claim_C7 (api₁ api₂ : API) (request : APIRequest) (job_id : String)
    (kvs₁ kvs₂ : List (String × Json))
    (h₁ : api₁.get_job job_id = some JobStatus.successful)
    (h₂ : api₂.get_job job_id = some JobStatus.successful)
    (hr₁ : api₁.job_result job_id = some (some "application/json", Json.obj kvs₁))
    (hr₂ : api₂.job_result job_id = some (some "application/json", Json.obj kvs₂))
    (hfmt : request.format = ReqFormat.json)
    (hperm : kvs₁.Perm kvs₂)
    (hnd : (kvs₁.map Prod.fst).Nodup) :
    (get_job_result api₁ request job_id).2.2 =
      Content.text (json_dumps_sorted (Json.obj kvs₁)) ∧
    (get_job_result api₁ request job_id).2.2 =
      (get_job_result api₂ request job_id).2.2 := by
  have e₁ : (get_job_result api₁ request job_id).2.2 =
      Content.text (json_dumps_sorted (Json.obj kvs₁)) := by
    simp [get_job_result, h₁, hr₁, result_response, mimetypePassthrough, hfmt]
  have e₂ : (get_job_result api₂ request job_id).2.2 =
      Content.text (json_dumps_sorted (Json.obj kvs₂)) := by
    simp [get_job_result, h₂, hr₂, result_response, mimetypePassthrough, hfmt]
  refine ⟨e₁, ?_⟩
  rw [e₁, e₂, json_dumps_sorted_perm kvs₁ kvs₂ hperm hnd]

/-- Claim C3 counterexample: inserting the same job metadata (same `jobid`)
twice through `TinyDBManager.add_job` is not rejected — the store ends up
holding two records with `jobid = "j"`, under doc ids 1 and 2. -/
theorem claim_C3_counterexample :
    (TinyDBManager.add_job (TinyDBManager.add_job [] dupJobDoc).1 dupJobDoc).1 =
      [(1, dupJobDoc), (2, dupJobDoc)] ∧
    ((((TinyDBManager.add_job (TinyDBManager.add_job [] dupJobDoc).1 dupJobDoc).1.map
        Prod.snd).filter (TinyDB.fieldEq "jobid" "j")).length = 2) := by
  constructor <;> rfl

/-- Claim C3 (amended): `TinyDBManager.add_job` never rejects a duplicate:
the transaction commit unconditionally appends the new record under a
fresh doc id (one not already present in the store) — a second record with
an already-stored `job_id` is silently added, not merged or overwritten —
and `add_job` returns `None` (tinyrecord's queued `tr.insert` yields no
id), not the id of the new record. -/
theorem claim_C3_amended (db : TinyDB.DB) (job_metadata : Json) :
    TinyDBManager.add_job db job_metadata =
      (db ++ [(TinyDB.nextDocId db, job_metadata)], none) ∧
    TinyDB.nextDocId db ∉ db.map Prod.fst :=
  ⟨rfl, nextDocId_fresh db⟩

/-- Claim C4: the `(process_id, job_id)` lookup was claimed to resolve to
exactly one job record or report not-found; in fact
`TinyDBManager.get_job_result` passes two positional query conditions to
TinyDB's one-condition `search`, so every call raises `TypeError` and the
lookup never resolves to anything — the claim matches the manager's own
docstring and the spec's `getByProcessAndJob`, and the code is the slip. -/
theorem claim_C4 (db : TinyDB.DB) (processid jobid : String) :
    TinyDBManager.get_job_result db processid jobid =
      Except.error PyError.typeError :=
  rfl

/-- Witness for claim C1: the hypotheses hold at the failed `hello-world`
scenario and the conclusion follows from `claim_C1` there. -/
theorem claim_C1_witness :
    ("hello-world" ∈ failedAPI.processes ∧ sampleRequest.data ≠ "" ∧
      json_loads sampleRequest.data = some (Json.obj sampleKvs) ∧
      failedAPI.manager_execute "hello-world"
        ((jsonGet (Json.obj sampleKvs) "inputs").getD (Json.obj []))
        (resolveExecutionMode sampleRequest.headers) = ExecOutcome.ok failedResult ∧
      failedResult.status = JobStatus.failed ∧
      failedAPI.get_job failedResult.job_id = some JobStatus.failed) ∧
    ((execute_process failedAPI sampleRequest "hello-world").2.1 = 200 ∧
      (execute_process failedAPI sampleRequest "hello-world").2.2 =
        bodyOf failedResult.mime_type failedAPI.pretty_print failedResult.outputs ∧
      get_job_result failedAPI sampleRequest failedResult.job_id =
        get_exception 400 (initialHeaders failedAPI) "InvalidParameterValue"
          "job failed") :=
  ⟨⟨by decide, by decide, rfl, rfl, rfl, rfl⟩,
    claim_C1 failedAPI sampleRequest sampleRequest "hello-world" sampleKvs
      failedResult (by decide) (by decide) rfl rfl rfl rfl⟩

/-- Witness for claim C2: the `successful`-with-result gate at the
successful `hello-world` scenario, via `claim_C2`. -/
theorem claim_C2_witness :
    (successAPI.get_job "job-1" = some JobStatus.successful ∧
      successAPI.job_result "job-1" = some (some "application/json", sampleOutputs)) ∧
    (get_job_result successAPI sampleRequest "job-1" =
      result_response successAPI sampleRequest (initialHeaders successAPI) "job-1"
        (some "application/json") sampleOutputs ∧
      (result_response successAPI sampleRequest (initialHeaders successAPI) "job-1"
        (some "application/json") sampleOutputs).2.1 = 200) :=
  ⟨⟨rfl, rfl⟩,
    (claim_C2 successAPI sampleRequest "job-1").2.2.2.1 (some "application/json")
      sampleOutputs rfl rfl⟩

/-- Witness for claim C5: the async `document`-style request at the
`accepted` scenario, via `claim_C5`. -/
theorem claim_C5_witness :
    ("hello-world" ∈ acceptedAPI.processes ∧ documentRequest.data ≠ "" ∧
      json_loads documentRequest.data = some (Json.obj documentKvs) ∧
      acceptedAPI.manager_execute "hello-world"
        ((jsonGet (Json.obj documentKvs) "inputs").getD (Json.obj []))
        (resolveExecutionMode documentRequest.headers) = ExecOutcome.ok acceptedResult ∧
      acceptedResult.status = JobStatus.accepted) ∧
    ((execute_process acceptedAPI documentRequest "hello-world").2.1 = 201 ∧
      headerGet (execute_process acceptedAPI documentRequest "hello-world").1
        "Location" =
        some (acceptedAPI.base_url ++ "/jobs/" ++ acceptedResult.job_id)) :=
  ⟨⟨by decide, by decide, rfl, rfl, rfl⟩,
    (claim_C5 acceptedAPI documentRequest "hello-world" documentKvs acceptedResult
      (by decide) (by decide) rfl rfl).1 rfl⟩

/-- Witness for claim C6: the default (absent `response` field, hence raw)
style at the successful scenario, via `claim_C6`. -/
theorem claim_C6_witness :
    (jsonGet (Json.obj sampleKvs) "response" = none ∧
      json_loads sampleRequest.data = some (Json.obj sampleKvs)) ∧
    ((execute_process successAPI sampleRequest "hello-world").2.2 =
      bodyOf successResult.mime_type successAPI.pretty_print successResult.outputs ∧
      headerGet (execute_process successAPI sampleRequest "hello-world").1
        "Content-Type" = some successResult.mime_type) :=
  ⟨⟨rfl, rfl⟩,
    (claim_C6 successAPI sampleRequest "hello-world" sampleKvs successResult
      (by decide) (by decide) rfl rfl).1 (Or.inl rfl)⟩

/-- Witness for claim C7: the same result object stored in two member
orders serializes identically, via `claim_C7`. -/
theorem claim_C7_witness :
    ((mkAPI JobStatus.successful (Json.obj permKvs1)).get_job "job-1" =
        some JobStatus.successful ∧
      sampleRequest.format = ReqFormat.json ∧ (permKvs1.map Prod.fst).Nodup) ∧
    ((get_job_result (mkAPI JobStatus.successful (Json.obj permKvs1)) sampleRequest
        "job-1").2.2 =
      Content.text (json_dumps_sorted (Json.obj permKvs1)) ∧
      (get_job_result (mkAPI JobStatus.successful (Json.obj permKvs1)) sampleRequest
        "job-1").2.2 =
      (get_job_result (mkAPI JobStatus.successful (Json.obj permKvs2)) sampleRequest
        "job-1").2.2) :=
  ⟨⟨rfl, rfl, by decide⟩,
    claim_C7 (mkAPI JobStatus.successful (Json.obj permKvs1))
      (mkAPI JobStatus.successful (Json.obj permKvs2)) sampleRequest "job-1"
      permKvs1 permKvs2 rfl rfl rfl rfl rfl
      (List.Perm.swap ("a", Json.num 2) ("b", Json.num 1) []) (by decide)⟩

/-- Witness for claim C8: the unrecognized header value `bogus` resolves to
`auto`, via `claim_C8`. -/
theorem claim_C8_witness :
    ("bogus" ≠ "respond-async" ∧ "bogus" ≠ "respond-sync") ∧
    parseExecutionMode (some "bogus") = ExecutionMode.auto :=
  ⟨⟨by decide, by decide⟩, claim_C8.2.1 "bogus" (by decide) (by decide)⟩

/-- Witness for claim C9: the async `document`-style request yields 201
with the empty-object body, via `claim_C9`. -/
theorem claim_C9_witness :
    (jsonGet (Json.obj documentKvs) "response" = some (Json.str "document") ∧
      acceptedResult.status = JobStatus.accepted) ∧
    ((execute_process acceptedAPI documentRequest "hello-world").2.1 = 201 ∧
      (execute_process acceptedAPI documentRequest "hello-world").2.2 =
        bodyOf acceptedResult.mime_type acceptedAPI.pretty_print (Json.obj []) ∧
      (acceptedResult.mime_type = "application/json" →
        (execute_process acceptedAPI documentRequest "hello-world").2.2 =
          Content.text (String.singleton lbrace ++ String.singleton rbrace))) :=
  ⟨⟨rfl, rfl⟩,
    claim_C9 acceptedAPI documentRequest "hello-world" documentKvs acceptedResult
      (by decide) (by decide) rfl rfl rfl rfl⟩

/-- Witness for claim C10: the `NoSuchProcess` path carries no `Location`
header, via `claim_C10`. -/
theorem claim_C10_witness :
    (headerGet successAPI.api_headers "Location" = none ∧
      "foo" ∉ successAPI.processes) ∧
    headerGet (execute_process successAPI sampleRequest "foo").1 "Location" = none :=
  ⟨⟨rfl, by decide⟩, (claim_C10 successAPI sampleRequest "foo" rfl).1 (by decide)⟩
